import Mathlib

/-!
Verification development for the LINE MCP server (`server.py`).

The server is shallowly embedded: JSON values are an inductive type, Python
dict access / truthiness / `or` / f-string formatting are modelled by small
helpers, raising operations run in `Except String`, and the single outbound
HTTP effect (`requests.post`) is modelled by recording the call that would be
made, with the transport outcome supplied as an oracle (`NetOutcome`).
`json.dumps` is modelled with `ensure_ascii=False` rendering; every string the
server serializes with the default `ensure_ascii=True` is pure ASCII, where
the two renderings agree.
-/

namespace LineMcp

/-- JSON values as decoded by the HTTP layer (`request.json()`), also used for
Python values flowing through the handlers (`None` is `Json.null`). -/
inductive Json where
  | null : Json
  | bool : Bool → Json
  | num : Int → Json
  | str : String → Json
  | arr : List Json → Json
  | obj : List (String × Json) → Json

/-- Python type name of a value, for exception messages. -/
def pyTypeName : Json → String
  | .null => "NoneType"
  | .bool _ => "bool"
  | .num _ => "int"
  | .str _ => "str"
  | .arr _ => "list"
  | .obj _ => "dict"

/-- Python truthiness (`bool(x)`). -/
def Json.truthy : Json → Bool
  | .null => false
  | .bool b => b
  | .num n => n != 0
  | .str s => s != ""
  | .arr xs => !xs.isEmpty
  | .obj fs => !fs.isEmpty

/-- Python `x == "lit"` for a string literal: true exactly when `x` is that
string (comparison with a value of another type is `False`). -/
def Json.isStr (j : Json) (s : String) : Bool :=
  match j with
  | .str t => t == s
  | _ => false

/-- Python `a or b`: `a` if truthy, else `b`. -/
def Json.pyOr (a b : Json) : Json :=
  if a.truthy then a else b

/-- `d.get(k, default)`: raises `AttributeError` on a non-dict receiver. -/
def Json.pyGetD (j : Json) (k : String) (d : Json) : Except String Json :=
  match j with
  | .obj fs => .ok (((fs.lookup k).getD d))
  | _ => .error ("AttributeError: \x27" ++ pyTypeName j ++
      "\x27 object has no attribute \x27get\x27")

/-- `d.get(k)`: missing key gives Python `None` (`Json.null`). -/
def Json.pyGet (j : Json) (k : String) : Except String Json :=
  j.pyGetD k .null

/-- Key lookup on an object (`none` when the receiver is not an object). -/
def Json.lookupKey : Json → String → Option Json
  | .obj fs, k => fs.lookup k
  | _, _ => none

/-- Whether an object carries a key. -/
def Json.hasKey (j : Json) (k : String) : Bool :=
  (j.lookupKey k).isSome

mutual

/-- Python `repr` of a value (approximate: strings are quoted without inner
escaping, which no string in this development needs). -/
def pyRepr : Json → String
  | .null => "None"
  | .bool true => "True"
  | .bool false => "False"
  | .num n => toString n
  | .str s => "\x27" ++ s ++ "\x27"
  | .arr xs => "[" ++ pyReprList xs ++ "]"
  | .obj fs => "\x7b" ++ pyReprFields fs ++ "\x7d"

def pyReprList : List Json → String
  | [] => ""
  | [x] => pyRepr x
  | x :: xs => pyRepr x ++ ", " ++ pyReprList xs

def pyReprFields : List (String × Json) → String
  | [] => ""
  | [(k, v)] => "\x27" ++ k ++ "\x27: " ++ pyRepr v
  | (k, v) :: fs => "\x27" ++ k ++ "\x27: " ++ pyRepr v ++ ", " ++ pyReprFields fs

end

/-- Python `str(x)` as used by f-string interpolation. -/
def pyStr : Json → String
  | .str s => s
  | j => pyRepr j

/-- JSON string escaping as `json.dumps` performs it. -/
def jsonEscapeChar (c : Char) : String :=
  if c = '"' then "\\\""
  else if c = '\\' then "\\\\"
  else if c = '\n' then "\\n"
  else if c = '\t' then "\\t"
  else if c = '\r' then "\\r"
  else String.mk [c]

def jsonEscape (s : String) : String :=
  String.join (s.toList.map jsonEscapeChar)

def dumpStr (s : String) : String :=
  "\"" ++ jsonEscape s ++ "\""

mutual

/-- `json.dumps(x, ensure_ascii=False)` with the default separators. -/
def Json.dumps : Json → String
  | .null => "null"
  | .bool true => "true"
  | .bool false => "false"
  | .num n => toString n
  | .str s => dumpStr s
  | .arr xs => "[" ++ dumpsList xs ++ "]"
  | .obj fs => "\x7b" ++ dumpsFields fs ++ "\x7d"

def dumpsList : List Json → String
  | [] => ""
  | [x] => x.dumps
  | x :: xs => x.dumps ++ ", " ++ dumpsList xs

def dumpsFields : List (String × Json) → String
  | [] => ""
  | [(k, v)] => dumpStr k ++ ": " ++ v.dumps
  | (k, v) :: fs => dumpStr k ++ ": " ++ v.dumps ++ ", " ++ dumpsFields fs

end

/-- The environment-provided credentials (`os.getenv` gives a string or
`None`; each field is `Json.null` or `Json.str`-valued in practice). -/
structure Env where
  CHANNEL_ACCESS_TOKEN : Json
  GROUP_ID : Json
  PERSONAL_USER_ID : Json

/-- Transport outcome of one outbound `requests.post`: `ok` for a 2xx
response, `fail e` for a non-2xx response or transport error, where `e` is
`str(e)` of the raised `RequestException`. -/
inductive NetOutcome where
  | ok : NetOutcome
  | fail : String → NetOutcome

/-- One outbound HTTP POST as `requests.post` would issue it. -/
structure HttpCall where
  url : String
  headers : List (String × String)
  body : Json
  timeout : Option Nat

/-- An HTTP response from a handler: status code and JSON body. -/
structure Response where
  status : Nat
  body : Json

def pushUrl : String := "https://api.line.me/v2/bot/message/push"

def replyUrl : String := "https://api.line.me/v2/bot/message/reply"

/-- `send_line_message(message, group_id=None)` from `server.py`: resolves the
recipient with Python `or` against the environment, fails fast when recipient
or token is missing, otherwise issues one POST and maps the transport outcome
to a result dict.  Returns the result dict together with the outbound calls
issued. -/
def send_line_message (env : Env) (net : NetOutcome) (message : Json)
    (group_id : Json := .null) : Json × List HttpCall :=
  let target_group_id := group_id.pyOr env.GROUP_ID
  if !target_group_id.truthy then
    (.obj [("success", .bool false), ("error", .str "GROUP_ID is not configured")], [])
  else if !env.CHANNEL_ACCESS_TOKEN.truthy then
    (.obj [("success", .bool false), ("error", .str "CHANNEL_ACCESS_TOKEN is not configured")], [])
  else
    let headers := [("Content-Type", "application/json"),
      ("Authorization", "Bearer " ++ pyStr env.CHANNEL_ACCESS_TOKEN)]
    let payload : Json := .obj [("to", target_group_id),
      ("messages", .arr [.obj [("type", .str "text"), ("text", message)]])]
    let call : HttpCall := ⟨pushUrl, headers, payload, some 10⟩
    match net with
    | .ok =>
        (.obj [("success", .bool true), ("message", .str "Message sent successfully"),
          ("group_id", target_group_id)], [call])
    | .fail e =>
        (.obj [("success", .bool false), ("error", .str e)], [call])

/-- Response body of the `initialize` method (verbatim from `server.py`). -/
def initializeBody : Json :=
  .obj [("protocolVersion", .str "2024-11-05"),
    ("capabilities", .obj [("tools", .obj [])]),
    ("serverInfo", .obj [("name", .str "LINE MCP Server"), ("version", .str "2.0.0")])]

/-- Response body of `tools/list` (verbatim from `server.py`): the single
static `send_line_message` tool descriptor with its input schema. -/
def toolsListBody : Json :=
  .obj [("tools", .arr [
    .obj [
      ("name", .str "send_line_message"),
      ("description", .str "LINEグループまたは個人にメッセージを送信します"),
      ("inputSchema", .obj [
        ("type", .str "object"),
        ("properties", .obj [
          ("message", .obj [
            ("type", .str "string"),
            ("description", .str "送信するメッセージ")]),
          ("target", .obj [
            ("type", .str "string"),
            ("description", .str "送信先: \x27group\x27（グループ）または \x27personal\x27（個人）。省略時はグループ"),
            ("enum", .arr [.str "group", .str "personal"])]),
          ("group_id", .obj [
            ("type", .str "string"),
            ("description", .str "グループID（targetがgroupの場合に使用。省略時はデフォルトのグループ）")]),
          ("user_id", .obj [
            ("type", .str "string"),
            ("description", .str "ユーザーID（targetがpersonalの場合に使用。省略時はデフォルトのユーザー）")])]),
        ("required", .arr [.str "message"])])]])]

/-- The uniform tool-result envelope: a `content` array of one
`type:"text"` element whose `text` is the `json.dumps` of the result. -/
def contentWrap (result : Json) : Json :=
  .obj [("content", .arr [.obj [("type", .str "text"), ("text", .str result.dumps)]])]

/-- The body of the `try:` block of `mcp_endpoint`; an `Except.error` is an
uncaught Python exception (message = `str(e)`). -/
def mcp_inner (env : Env) (net : NetOutcome) (body : Json) :
    Except String (Response × List HttpCall) := do
  let method ← body.pyGet "method"
  if method.isStr "initialize" then
    return (⟨200, initializeBody⟩, [])
  else if method.isStr "tools/list" then
    return (⟨200, toolsListBody⟩, [])
  else if method.isStr "tools/call" then
    let params ← body.pyGetD "params" (.obj [])
    let tool_name ← params.pyGet "name"
    let arguments ← params.pyGetD "arguments" (.obj [])
    if tool_name.isStr "send_line_message" then
      let message ← arguments.pyGet "message"
      let target ← arguments.pyGetD "target" (.str "group")
      let group_id ← arguments.pyGet "group_id"
      let user_id ← arguments.pyGet "user_id"
      if !message.truthy then
        return (⟨200, contentWrap (.obj [("success", .bool false),
          ("error", .str "message parameter is required")])⟩, [])
      else if target.isStr "personal" then
        let target_id := user_id.pyOr env.PERSONAL_USER_ID
        if !target_id.truthy then
          return (⟨200, contentWrap (.obj [("success", .bool false),
            ("error", .str "PERSONAL_USER_ID is not configured")])⟩, [])
        else
          let r := send_line_message env net message target_id
          return (⟨200, contentWrap r.1⟩, r.2)
      else
        let target_id := group_id.pyOr env.GROUP_ID
        let r := send_line_message env net message target_id
        return (⟨200, contentWrap r.1⟩, r.2)
    else
      return (⟨200, contentWrap (.obj [("success", .bool false),
        ("error", .str ("Unknown tool: " ++ pyStr tool_name))])⟩, [])
  else
    return (⟨404, .obj [("error", .obj [("code", .num (-32601)),
      ("message", .str ("Method not found: " ++ pyStr method))])]⟩, [])

/-- `POST /mcp` handler: the dispatcher with its top-level exception catch
(`-32603` / HTTP 500).  Returns the response and the outbound calls issued. -/
def mcp_endpoint (env : Env) (net : NetOutcome) (body : Json) :
    Response × List HttpCall :=
  match mcp_inner env net body with
  | .ok r => r
  | .error e =>
      (⟨500, .obj [("error", .obj [("code", .num (-32603)),
        ("message", .str ("Internal error: " ++ e))])]⟩, [])

/-- Python `str.lower` (case mapping modelled on the ASCII range; every
character the handlers compare is ASCII or caseless). -/
def strLower (s : String) : String :=
  String.mk (s.toList.map Char.toLower)

/-- `message_text.lower()`: raises on a non-string receiver. -/
def pyLower : Json → Except String String
  | .str s => .ok (strLower s)
  | j => .error ("AttributeError: \x27" ++ pyTypeName j ++
      "\x27 object has no attribute \x27lower\x27")

/-- Whether `needle` occurs as a contiguous sublist (Python `in` on str). -/
def listContainsSubstr (needle : List Char) : List Char → Bool
  | [] => needle.isEmpty
  | c :: t => needle.isPrefixOf (c :: t) || listContainsSubstr needle t

/-- Python `needle in hay` on strings. -/
def strContains (hay needle : String) : Bool :=
  listContainsSubstr needle.toList hay.toList

/-- Python `for event in events`: iteration over a decoded JSON value
(strings yield characters, dicts yield keys, other scalars raise). -/
def pyIter (j : Json) : Except String (List Json) :=
  match j with
  | .arr xs => .ok xs
  | .str s => .ok (s.toList.map fun c => Json.str (String.mk [c]))
  | .obj fs => .ok (fs.map fun kv => Json.str kv.1)
  | _ => .error ("TypeError: \x27" ++ pyTypeName j ++ "\x27 object is not iterable")

/-- One iteration of the event loop in the `webhook` handler: extraction,
logging (not modelled — pure observability) and the optional auto-reply.
Returns the reply calls issued by this event; the reply `requests.post` has
no surrounding `try`, so a transport failure propagates as an exception. -/
def processEvent (env : Env) (net : NetOutcome) (event : Json) :
    Except String (List HttpCall) := do
  let event_type ← event.pyGet "type"
  let source ← event.pyGetD "source" (.obj [])
  if event_type.isStr "message" then
    let user_id ← source.pyGet "userId"
    let _group_id ← source.pyGet "groupId"
    let messageObj ← event.pyGetD "message" (.obj [])
    let message_text ← messageObj.pyGetD "text" (.str "")
    if user_id.truthy then
      let lowered ← pyLower message_text
      if strContains lowered "userid" then
        let reply_token ← event.pyGet "replyToken"
        if reply_token.truthy then
          let reply_message := "あなたのUser IDは: " ++ pyStr user_id
          let reply_headers := [("Content-Type", "application/json"),
            ("Authorization", "Bearer " ++ pyStr env.CHANNEL_ACCESS_TOKEN)]
          let reply_payload : Json := .obj [("replyToken", reply_token),
            ("messages", .arr [.obj [("type", .str "text"), ("text", .str reply_message)]])]
          let call : HttpCall := ⟨replyUrl, reply_headers, reply_payload, none⟩
          match net with
          | .ok => return [call]
          | .fail e => .error e
        else
          return []
      else
        return []
    else
      return []
  else
    return []

/-- The `for event in events` loop: calls accumulate across events; the first
uncaught exception aborts the remaining iterations. -/
def webhookLoop (env : Env) (net : NetOutcome) : List Json → List HttpCall × Option String
  | [] => ([], none)
  | e :: rest =>
      match processEvent env net e with
      | .ok cs =>
          let r := webhookLoop env net rest
          (cs ++ r.1, r.2)
      | .error m => ([], some m)

/-- `POST /webhook` handler: iterates `body.events`, auto-replies per event,
returns `{status:"ok"}` on success and a 500 `{status:"error"}` when an
exception is caught. -/
def webhook (env : Env) (net : NetOutcome) (body : Json) : Response × List HttpCall :=
  match (do
      let events ← body.pyGetD "events" (.arr [])
      pyIter events : Except String (List Json)) with
  | .error m => (⟨500, .obj [("status", .str "error"), ("message", .str m)]⟩, [])
  | .ok events =>
      match webhookLoop env net events with
      | (calls, none) => (⟨200, .obj [("status", .str "ok")]⟩, calls)
      | (calls, some m) => (⟨500, .obj [("status", .str "error"), ("message", .str m)]⟩, calls)

/-- C2: with a non-empty message, a non-empty recipient and the access token
present, `send_line_message` issues exactly one outbound POST with the fixed
JSON envelope, the bearer header and a 10-unit timeout; a 2xx outcome yields
the success dict carrying the recipient, any other outcome yields
`{success:false, error:<stringified cause>}`, with no retry (the call list is
a singleton either way). -/
theorem C2_deliver_contract (env : Env) (net : NetOutcome) (message recipient : Json)
    (_hmsg : message.truthy = true)
    (hrec : recipient.truthy = true)
    (htok : env.CHANNEL_ACCESS_TOKEN.truthy = true) :
    send_line_message env net message recipient =
      ((match net with
        | .ok => Json.obj [("success", .bool true),
            ("message", .str "Message sent successfully"), ("group_id", recipient)]
        | .fail e => Json.obj [("success", .bool false), ("error", .str e)]),
       [⟨pushUrl,
         [("Content-Type", "application/json"),
          ("Authorization", "Bearer " ++ pyStr env.CHANNEL_ACCESS_TOKEN)],
         .obj [("to", recipient),
           ("messages", .arr [.obj [("type", .str "text"), ("text", message)]])],
         some 10⟩]) := by
  cases net <;> simp [send_line_message, Json.pyOr, hrec, htok]

/-- Witness for C2 at message `"hi"`, recipient `"G1"`, token `"T"`, 2xx. -/
theorem C2_deliver_contract_witness :
    send_line_message ⟨.str "T", .null, .null⟩ .ok (.str "hi") (.str "G1") =
      (Json.obj [("success", .bool true), ("message", .str "Message sent successfully"),
        ("group_id", .str "G1")],
       [⟨pushUrl,
         [("Content-Type", "application/json"), ("Authorization", "Bearer T")],
         .obj [("to", .str "G1"),
           ("messages", .arr [.obj [("type", .str "text"), ("text", .str "hi")]])],
         some 10⟩]) :=
  C2_deliver_contract ⟨.str "T", .null, .null⟩ .ok (.str "hi") (.str "G1") rfl rfl rfl

/-- C3 counterexample: with no recipient configured and none passed, the
`error` field of the result is the string `"GROUP_ID is not configured"`,
which differs from the `"recipient not configured"` the claim requires. -/
theorem C3_counterexample :
    ((send_line_message ⟨.null, .null, .null⟩ .ok (.str "hi") .null).1.lookupKey "error") =
      some (.str "GROUP_ID is not configured") ∧
    ("GROUP_ID is not configured" == "recipient not configured") = false := by
  exact ⟨rfl, rfl⟩

/-- C3 (amended): `send_line_message` fails fast with zero outbound calls: an
empty resolved recipient yields `{success:false, error:"GROUP_ID is not
configured"}`, and a non-empty recipient with a missing access token yields
`{success:false, error:"CHANNEL_ACCESS_TOKEN is not configured"}`. -/
theorem C3_fail_fast (env : Env) (net : NetOutcome) (message group_id : Json) :
    ((group_id.pyOr env.GROUP_ID).truthy = false →
      send_line_message env net message group_id =
        (.obj [("success", .bool false), ("error", .str "GROUP_ID is not configured")], [])) ∧
    ((group_id.pyOr env.GROUP_ID).truthy = true → env.CHANNEL_ACCESS_TOKEN.truthy = false →
      send_line_message env net message group_id =
        (.obj [("success", .bool false),
          ("error", .str "CHANNEL_ACCESS_TOKEN is not configured")], [])) := by
  constructor
  · intro h
    simp [send_line_message, h]
  · intro h h2
    simp [send_line_message, h, h2]

/-- Witness for C3: both fail-fast paths at concrete inputs. -/
theorem C3_fail_fast_witness :
    send_line_message ⟨.null, .null, .null⟩ .ok (.str "hi") .null =
      (.obj [("success", .bool false), ("error", .str "GROUP_ID is not configured")], []) ∧
    send_line_message ⟨.null, .str "G", .null⟩ .ok (.str "hi") .null =
      (.obj [("success", .bool false),
        ("error", .str "CHANNEL_ACCESS_TOKEN is not configured")], []) :=
  ⟨(C3_fail_fast ⟨.null, .null, .null⟩ .ok (.str "hi") .null).1 rfl,
   (C3_fail_fast ⟨.null, .str "G", .null⟩ .ok (.str "hi") .null).2 rfl rfl⟩

/-- C9: every result dict of `send_line_message`, on every path, carries
exactly one of the `message` / `error` fields, carries `message` exactly when
`success` is `true`, and carries `group_id` exactly on success. -/
theorem C9_sendresult_shape (env : Env) (net : NetOutcome) (message group_id : Json) :
    (((send_line_message env net message group_id).1.hasKey "error") =
      !((send_line_message env net message group_id).1.hasKey "message")) ∧
    ((send_line_message env net message group_id).1.lookupKey "success" =
      some (.bool ((send_line_message env net message group_id).1.hasKey "message"))) ∧
    (((send_line_message env net message group_id).1.hasKey "group_id") =
      ((send_line_message env net message group_id).1.hasKey "message")) := by
  by_cases h1 : (group_id.pyOr env.GROUP_ID).truthy
  · by_cases h2 : env.CHANNEL_ACCESS_TOKEN.truthy
    · cases net <;> simp [send_line_message, h1, h2, Json.hasKey, Json.lookupKey] <;>
        exact ⟨rfl, rfl⟩
    · simp [send_line_message, h1, h2, Json.hasKey, Json.lookupKey]
      exact ⟨rfl, rfl⟩
  · simp [send_line_message, h1, Json.hasKey, Json.lookupKey]
    exact ⟨rfl, rfl⟩

/-- C1: a `tools/call` of `send_line_message` with message `"hi"`, target
`"group"`, no explicit `group_id` and default group id `"G1"` invokes the
delivery path with `("hi", "G1")` (one push call with that payload), and on a
2xx outcome responds 200 with a one-element `content` array whose text is the
serialized success dict carrying `group_id:"G1"`. -/
theorem C1_group_default_scenario (tok : String) (pu : Json) (htok : tok ≠ "") :
    mcp_endpoint ⟨.str tok, .str "G1", pu⟩ .ok
      (.obj [("method", .str "tools/call"),
        ("params", .obj [("name", .str "send_line_message"),
          ("arguments", .obj [("message", .str "hi"), ("target", .str "group")])])]) =
    (⟨200, .obj [("content", .arr [.obj [("type", .str "text"),
        ("text", .str "\x7b\"success\": true, \"message\": \"Message sent successfully\", \"group_id\": \"G1\"\x7d")]])]⟩,
     [⟨pushUrl,
       [("Content-Type", "application/json"), ("Authorization", "Bearer " ++ tok)],
       .obj [("to", .str "G1"),
         ("messages", .arr [.obj [("type", .str "text"), ("text", .str "hi")]])],
       some 10⟩]) := by
  have hT : (Json.str tok).truthy = true := by simp [Json.truthy, htok]
  have hsend : send_line_message ⟨.str tok, .str "G1", pu⟩ .ok (.str "hi") (.str "G1") =
      (Json.obj [("success", .bool true), ("message", .str "Message sent successfully"),
        ("group_id", .str "G1")],
       [⟨pushUrl,
         [("Content-Type", "application/json"), ("Authorization", "Bearer " ++ tok)],
         .obj [("to", .str "G1"),
           ("messages", .arr [.obj [("type", .str "text"), ("text", .str "hi")]])],
         some 10⟩]) := by
    have hG : (Json.str "G1").truthy = true := rfl
    simp [send_line_message, Json.pyOr, hG, hT, pyStr]
  have e : mcp_endpoint ⟨.str tok, .str "G1", pu⟩ .ok
      (.obj [("method", .str "tools/call"),
        ("params", .obj [("name", .str "send_line_message"),
          ("arguments", .obj [("message", .str "hi"), ("target", .str "group")])])]) =
      (⟨200, contentWrap (send_line_message ⟨.str tok, .str "G1", pu⟩ .ok (.str "hi") (.str "G1")).1⟩,
       (send_line_message ⟨.str tok, .str "G1", pu⟩ .ok (.str "hi") (.str "G1")).2) := rfl
  rw [e, hsend]
  rfl

/-- Witness for C1 at token `"T"` and no configured personal id. -/
theorem C1_group_default_scenario_witness :
    mcp_endpoint ⟨.str "T", .str "G1", .null⟩ .ok
      (.obj [("method", .str "tools/call"),
        ("params", .obj [("name", .str "send_line_message"),
          ("arguments", .obj [("message", .str "hi"), ("target", .str "group")])])]) =
    (⟨200, .obj [("content", .arr [.obj [("type", .str "text"),
        ("text", .str "\x7b\"success\": true, \"message\": \"Message sent successfully\", \"group_id\": \"G1\"\x7d")]])]⟩,
     [⟨pushUrl,
       [("Content-Type", "application/json"), ("Authorization", "Bearer T")],
       .obj [("to", .str "G1"),
         ("messages", .arr [.obj [("type", .str "text"), ("text", .str "hi")]])],
       some 10⟩]) :=
  C1_group_default_scenario "T" .null (by decide)

theorem exceptOkBind {α β ε : Type} (a : α) (f : α → Except ε β) :
    (Except.ok a >>= f : Except ε β) = f a := rfl

theorem exceptPureEq {α ε : Type} (a : α) : (pure a : Except ε α) = Except.ok a := rfl

theorem truthy_null : Json.null.truthy = false := rfl

theorem truthy_str (s : String) : (Json.str s).truthy = (s != "") := rfl

theorem isStr_null (s : String) : Json.null.isStr s = false := rfl

theorem isStr_str (t s : String) : (Json.str t).isStr s = (t == s) := rfl

theorem pyStr_null : pyStr Json.null = "None" := rfl

theorem pyStr_str (s : String) : pyStr (Json.str s) = s := rfl

/-- C4: a `tools/call` of `send_line_message` with a present message, target
`"personal"`, no explicit `user_id` and no configured default personal id
answers HTTP 200 with the in-band `PERSONAL_USER_ID is not configured` error
and issues zero outbound calls. -/
theorem C4_personal_unconfigured (tok gid pu : Json) (net : NetOutcome) (m gidArg : Json)
    (hm : m.truthy = true) (hpu : pu.truthy = false) :
    mcp_endpoint ⟨tok, gid, pu⟩ net
      (.obj [("method", .str "tools/call"),
        ("params", .obj [("name", .str "send_line_message"),
          ("arguments", .obj [("message", m), ("target", .str "personal"),
            ("group_id", gidArg)])])]) =
    (⟨200, contentWrap (.obj [("success", .bool false),
      ("error", .str "PERSONAL_USER_ID is not configured")])⟩, []) := by
  have hi : mcp_inner ⟨tok, gid, pu⟩ net
      (.obj [("method", .str "tools/call"),
        ("params", .obj [("name", .str "send_line_message"),
          ("arguments", .obj [("message", m), ("target", .str "personal"),
            ("group_id", gidArg)])])]) =
      .ok (⟨200, contentWrap (.obj [("success", .bool false),
        ("error", .str "PERSONAL_USER_ID is not configured")])⟩, []) := by
    simp [mcp_inner, Json.pyGet, Json.pyGetD, Json.pyOr, List.lookup,
      exceptOkBind, exceptPureEq, truthy_null, truthy_str, isStr_str, isStr_null, hm, hpu]
  unfold mcp_endpoint
  rw [hi]

theorem C4_personal_unconfigured_witness :
    mcp_endpoint ⟨.str "T", .str "G1", .null⟩ .ok
      (.obj [("method", .str "tools/call"),
        ("params", .obj [("name", .str "send_line_message"),
          ("arguments", .obj [("message", .str "hi"), ("target", .str "personal"),
            ("group_id", .null)])])]) =
    (⟨200, contentWrap (.obj [("success", .bool false),
      ("error", .str "PERSONAL_USER_ID is not configured")])⟩, []) :=
  C4_personal_unconfigured (.str "T") (.str "G1") .null .ok (.str "hi") .null rfl rfl

/-- C6: a `tools/call` of `send_line_message` whose `message` argument is
absent or the empty string answers HTTP 200 with the in-band
`message parameter is required` error and issues zero outbound calls. -/
theorem C6_message_required (env : Env) (net : NetOutcome) (args : List (String × Json))
    (h : args.lookup "message" = none ∨ args.lookup "message" = some (.str "")) :
    mcp_endpoint env net
      (.obj [("method", .str "tools/call"),
        ("params", .obj [("name", .str "send_line_message"), ("arguments", .obj args)])]) =
    (⟨200, contentWrap (.obj [("success", .bool false),
      ("error", .str "message parameter is required")])⟩, []) := by
  have hi : mcp_inner env net
      (.obj [("method", .str "tools/call"),
        ("params", .obj [("name", .str "send_line_message"), ("arguments", .obj args)])]) =
      .ok (⟨200, contentWrap (.obj [("success", .bool false),
        ("error", .str "message parameter is required")])⟩, []) := by
    rcases h with h | h <;>
      simp [mcp_inner, Json.pyGet, Json.pyGetD, List.lookup,
        exceptOkBind, exceptPureEq, truthy_null, truthy_str, isStr_str, h]
  unfold mcp_endpoint
  rw [hi]

theorem C6_message_required_witness :
    mcp_endpoint ⟨.str "T", .str "G1", .null⟩ .ok
      (.obj [("method", .str "tools/call"),
        ("params", .obj [("name", .str "send_line_message"),
          ("arguments", .obj [("target", .str "group")])])]) =
    (⟨200, contentWrap (.obj [("success", .bool false),
      ("error", .str "message parameter is required")])⟩, []) :=
  C6_message_required ⟨.str "T", .str "G1", .null⟩ .ok [("target", .str "group")] (.inl rfl)

/-- C7: a request whose `method` is none of `initialize`, `tools/list`,
`tools/call` (including a missing method) answers HTTP 404 with the
JSON-RPC-style error `{code:-32601, message:"Method not found: <method>"}`
and issues zero outbound calls. -/
theorem C7_unknown_method (env : Env) (net : NetOutcome) (fields : List (String × Json))
    (h1 : ((fields.lookup "method").getD .null).isStr "initialize" = false)
    (h2 : ((fields.lookup "method").getD .null).isStr "tools/list" = false)
    (h3 : ((fields.lookup "method").getD .null).isStr "tools/call" = false) :
    mcp_endpoint env net (.obj fields) =
      (⟨404, .obj [("error", .obj [("code", .num (-32601)),
        ("message", .str ("Method not found: " ++
          pyStr ((fields.lookup "method").getD .null)))])]⟩, []) := by
  have hi : mcp_inner env net (.obj fields) =
      .ok (⟨404, .obj [("error", .obj [("code", .num (-32601)),
        ("message", .str ("Method not found: " ++
          pyStr ((fields.lookup "method").getD .null)))])]⟩, []) := by
    simp only [mcp_inner, Json.pyGet, Json.pyGetD, exceptOkBind, exceptPureEq, h1, h2, h3]
    rfl
  unfold mcp_endpoint
  rw [hi]

theorem C7_unknown_method_witness :
    mcp_endpoint ⟨.null, .null, .null⟩ .ok (.obj [("method", .str "unknown_method")]) =
      (⟨404, .obj [("error", .obj [("code", .num (-32601)),
        ("message", .str "Method not found: unknown_method")])]⟩, []) :=
  C7_unknown_method ⟨.null, .null, .null⟩ .ok [("method", .str "unknown_method")] rfl rfl rfl

/-- C8: `tools/list` is pure and idempotent: any two `tools/list` requests,
whatever their other fields, the environment or the network, get the same
response — HTTP 200 with the single static tool descriptor — and issue zero
outbound calls. -/
theorem C8_tools_list_pure (env1 env2 : Env) (net1 net2 : NetOutcome)
    (f1 f2 : List (String × Json))
    (h1 : f1.lookup "method" = some (.str "tools/list"))
    (h2 : f2.lookup "method" = some (.str "tools/list")) :
    mcp_endpoint env1 net1 (.obj f1) = (⟨200, toolsListBody⟩, []) ∧
    mcp_endpoint env1 net1 (.obj f1) = mcp_endpoint env2 net2 (.obj f2) := by
  have key : ∀ (env : Env) (net : NetOutcome) (f : List (String × Json)),
      f.lookup "method" = some (.str "tools/list") →
      mcp_endpoint env net (.obj f) = (⟨200, toolsListBody⟩, []) := by
    intro env net f h
    have hi : mcp_inner env net (.obj f) = .ok (⟨200, toolsListBody⟩, []) := by
      simp [mcp_inner, Json.pyGet, Json.pyGetD, exceptOkBind, exceptPureEq, isStr_str, h]
    unfold mcp_endpoint
    rw [hi]
  refine ⟨key env1 net1 f1 h1, ?_⟩
  rw [key env1 net1 f1 h1, key env2 net2 f2 h2]

theorem C8_tools_list_pure_witness :
    mcp_endpoint ⟨.str "T", .str "G1", .null⟩ .ok
      (.obj [("method", .str "tools/list"), ("params", .obj [("x", .num 1)])]) =
      (⟨200, toolsListBody⟩, []) ∧
    mcp_endpoint ⟨.str "T", .str "G1", .null⟩ .ok
      (.obj [("method", .str "tools/list"), ("params", .obj [("x", .num 1)])]) =
      mcp_endpoint ⟨.null, .null, .null⟩ (.fail "down") (.obj [("method", .str "tools/list")]) :=
  C8_tools_list_pure ⟨.str "T", .str "G1", .null⟩ ⟨.null, .null, .null⟩ .ok (.fail "down")
    [("method", .str "tools/list"), ("params", .obj [("x", .num 1)])]
    [("method", .str "tools/list")] rfl rfl

/-- C10: a `tools/call` whose `params` is absent, or whose `params` object
lacks a `name` field, is not a protocol error: the dispatcher answers HTTP
200 with in-band content `{success:false, error:"Unknown tool: None"}` and
issues zero outbound calls. -/
theorem C10_missing_params (env : Env) (net : NetOutcome)
    (bfields pfields : List (String × Json))
    (hb : bfields.lookup "method" = some (.str "tools/call")) :
    (bfields.lookup "params" = none →
      mcp_endpoint env net (.obj bfields) =
        (⟨200, contentWrap (.obj [("success", .bool false),
          ("error", .str "Unknown tool: None")])⟩, [])) ∧
    (bfields.lookup "params" = some (.obj pfields) → pfields.lookup "name" = none →
      mcp_endpoint env net (.obj bfields) =
        (⟨200, contentWrap (.obj [("success", .bool false),
          ("error", .str "Unknown tool: None")])⟩, [])) := by
  constructor
  · intro hp
    have hi : mcp_inner env net (.obj bfields) =
        .ok (⟨200, contentWrap (.obj [("success", .bool false),
          ("error", .str "Unknown tool: None")])⟩, []) := by
      simp [mcp_inner, Json.pyGet, Json.pyGetD, List.lookup, exceptOkBind, exceptPureEq,
        isStr_str, isStr_null, pyStr_null, hb, hp]
    unfold mcp_endpoint
    rw [hi]
  · intro hp hn
    have hi : mcp_inner env net (.obj bfields) =
        .ok (⟨200, contentWrap (.obj [("success", .bool false),
          ("error", .str "Unknown tool: None")])⟩, []) := by
      simp [mcp_inner, Json.pyGet, Json.pyGetD, List.lookup, exceptOkBind, exceptPureEq,
        isStr_str, isStr_null, pyStr_null, hb, hp, hn]
    unfold mcp_endpoint
    rw [hi]

theorem C10_missing_params_witness :
    mcp_endpoint ⟨.str "T", .str "G1", .null⟩ .ok
      (.obj [("method", .str "tools/call")]) =
      (⟨200, contentWrap (.obj [("success", .bool false),
        ("error", .str "Unknown tool: None")])⟩, []) ∧
    mcp_endpoint ⟨.str "T", .str "G1", .null⟩ .ok
      (.obj [("method", .str "tools/call"),
        ("params", .obj [("arguments", .obj [("message", .str "hi")])])]) =
      (⟨200, contentWrap (.obj [("success", .bool false),
        ("error", .str "Unknown tool: None")])⟩, []) :=
  ⟨(C10_missing_params ⟨.str "T", .str "G1", .null⟩ .ok [("method", .str "tools/call")] []
      rfl).1 rfl,
   (C10_missing_params ⟨.str "T", .str "G1", .null⟩ .ok
      [("method", .str "tools/call"),
        ("params", .obj [("arguments", .obj [("message", .str "hi")])])]
      [("arguments", .obj [("message", .str "hi")])] rfl).2 rfl rfl⟩

/-- C5: for any webhook event of type `message` whose source carries a truthy
`userId`, whose lowercased text contains the substring `"userid"` and whose
`replyToken` is truthy, exactly one reply call is issued, addressed by that
token, with text `あなたのUser IDは: <userId>`; and the spec's concrete
scenario issues exactly one such call, with text `あなたのUser IDは: U1`, the
handler answering 200 `{status:"ok"}`. -/
theorem C5_auto_reply (env : Env) (efields sfields mfields : List (String × Json))
    (uid rtok : Json) (txt : String)
    (h1 : efields.lookup "type" = some (.str "message"))
    (h2 : efields.lookup "source" = some (.obj sfields))
    (h3 : sfields.lookup "userId" = some uid)
    (h4 : uid.truthy = true)
    (h5 : efields.lookup "message" = some (.obj mfields))
    (h6 : mfields.lookup "text" = some (.str txt))
    (h7 : strContains (strLower txt) "userid" = true)
    (h8 : efields.lookup "replyToken" = some rtok)
    (h9 : rtok.truthy = true) :
    processEvent env .ok (.obj efields) =
      .ok [⟨replyUrl,
        [("Content-Type", "application/json"),
         ("Authorization", "Bearer " ++ pyStr env.CHANNEL_ACCESS_TOKEN)],
        .obj [("replyToken", rtok),
          ("messages", .arr [.obj [("type", .str "text"),
            ("text", .str ("あなたのUser IDは: " ++ pyStr uid))]])],
        none⟩] ∧
    webhook env .ok
      (.obj [("events", .arr [
        .obj [("type", .str "message"),
          ("source", .obj [("userId", .str "U1")]),
          ("message", .obj [("text", .str "what is my userid?")]),
          ("replyToken", .str "R1")]])]) =
      (⟨200, .obj [("status", .str "ok")]⟩,
       [⟨replyUrl,
         [("Content-Type", "application/json"),
          ("Authorization", "Bearer " ++ pyStr env.CHANNEL_ACCESS_TOKEN)],
         .obj [("replyToken", .str "R1"),
           ("messages", .arr [.obj [("type", .str "text"),
             ("text", .str "あなたのUser IDは: U1")]])],
         none⟩]) := by
  constructor
  · simp [processEvent, Json.pyGet, Json.pyGetD, exceptOkBind, exceptPureEq, isStr_str,
      pyLower, h1, h2, h3, h4, h5, h6, h7, h8, h9]
  · rfl

/-- Witness for C5 at the spec's concrete webhook event. -/
theorem C5_auto_reply_witness :
    processEvent ⟨.str "T", .str "G1", .null⟩ .ok
      (.obj [("type", .str "message"),
        ("source", .obj [("userId", .str "U1")]),
        ("message", .obj [("text", .str "what is my userid?")]),
        ("replyToken", .str "R1")]) =
      .ok [⟨replyUrl,
        [("Content-Type", "application/json"), ("Authorization", "Bearer T")],
        .obj [("replyToken", .str "R1"),
          ("messages", .arr [.obj [("type", .str "text"),
            ("text", .str "あなたのUser IDは: U1")]])],
        none⟩] :=
  (C5_auto_reply ⟨.str "T", .str "G1", .null⟩
    [("type", .str "message"), ("source", .obj [("userId", .str "U1")]),
      ("message", .obj [("text", .str "what is my userid?")]), ("replyToken", .str "R1")]
    [("userId", .str "U1")] [("text", .str "what is my userid?")]
    (.str "U1") (.str "R1") "what is my userid?"
    rfl rfl rfl rfl rfl rfl rfl rfl rfl).1

end LineMcp
